import Mathlib

/-!
Shallow embedding of the chrome-pandoc extension core
(`src/pandoc.js` and `src/background.js`) and proofs about it.

The element selector `getClickedElement`, the conversion pipeline `pandoc`,
and the background handlers `createMenuItems`, `onOptionsChange`, `onAction`
and `onMenuItemClicked` are translated into pure Lean functions.  Browser
effects (script injections, the native-messaging round trip, the clipboard
write) are reified as an ordered trace of `Effect` values; the replies of
the environment (per-frame injection results, the native process reply) are
passed in as parameters.
-/

/-- A JavaScript primitive value as it occurs in the click data: the
`selectionText` field is a string on real context-menu clicks, but the
toolbar handler passes the boolean `true` (`{ selectionText: true }`). -/
inductive JsValue where
  | str : String → JsValue
  | bool : Bool → JsValue
deriving DecidableEq, Repr

/-- ECMAScript `ToString` on a `JsValue`. -/
def JsValue.toStr : JsValue → String
  | .str s => s
  | .bool true => "true"
  | .bool false => "false"

/-- ECMAScript `ToString` applied to a possibly-absent value: an absent
field (JavaScript `undefined`) stringifies to `"undefined"`.  This is the
coercion performed by `String.prototype.concat`, by reflected attribute
setters such as `img.src = …`, and by the `textContent` setter. -/
def jsStr : Option String → String
  | some s => s
  | none => "undefined"

/-- The click data `chrome.contextMenus.OnClickData`, with the optional fields the source
reads.  All fields are optional, matching the JavaScript object: presence
is tested with the `in` operator. -/
structure ClickedData where
  linkUrl : Option String := none
  srcUrl : Option String := none
  mediaType : Option String := none
  selectionText : Option JsValue := none
  pageUrl : Option String := none
  menuItemId : Option String := none
  frameId : Option Nat := none
deriving DecidableEq, Repr

/-- The page state `getClickedElement` reads: the current selection
(`window.getSelection()`), modelled by the HTML serialization of each
range's cloned contents in range order, and the document element's
`outerHTML`. -/
structure PageState where
  selectionRanges : List String
  documentHTML : String
deriving DecidableEq, Repr

/-- A DOM node as built by the selector: an element with a tag name, an
ordered attribute list and child nodes, or a text node. -/
inductive Node where
  | element : String → List (String × String) → List Node → Node
  | text : String → Node

/-- HTML void elements, serialized without children or an end tag. -/
def voidElements : List String :=
  ["area", "base", "br", "col", "embed", "hr", "img", "input",
   "link", "meta", "source", "track", "wbr"]

/-- Escaping of an attribute value in the HTML fragment serialization
algorithm: `&`, U+00A0 and `"` are replaced by character references. -/
def escapeAttr (s : String) : String :=
  String.join (s.data.map fun c =>
    if c = '&' then "&amp;"
    else if c = Char.ofNat 160 then "&nbsp;"
    else if c = '"' then "&quot;"
    else String.mk [c])

/-- Escaping of text data in the HTML fragment serialization algorithm:
`&`, U+00A0, `<` and `>` are replaced by character references. -/
def escapeText (s : String) : String :=
  String.join (s.data.map fun c =>
    if c = '&' then "&amp;"
    else if c = Char.ofNat 160 then "&nbsp;"
    else if c = '<' then "&lt;"
    else if c = '>' then "&gt;"
    else String.mk [c])

mutual

/-- The `outerHTML` of a node: its HTML fragment serialization. -/
def serializeNode : Node → String
  | .text s => escapeText s
  | .element tag attrs children =>
      "<" ++ tag
        ++ String.join (attrs.map fun a => " " ++ a.1 ++ "=\"" ++ escapeAttr a.2 ++ "\"")
        ++ ">"
        ++ (if tag ∈ voidElements then ""
            else serializeNodes children ++ "</" ++ tag ++ ">")

/-- Serialization of a list of sibling nodes, in order. -/
def serializeNodes : List Node → String
  | [] => ""
  | n :: ns => serializeNode n ++ serializeNodes ns

end

/-- The seven dispatch conditions of `getClickedElement`, in source order
(the `case` labels of the `switch (true)`), indexed from 0. -/
def branchCond (i : Nat) (c : ClickedData) : Bool :=
  match i with
  | 0 => c.linkUrl.isSome && c.mediaType == some "image"
  | 1 => c.linkUrl.isSome && c.selectionText.isSome
  | 2 => c.mediaType == some "video"
  | 3 => c.mediaType == some "audio"
  | 4 => c.mediaType == some "image"
  | 5 => c.selectionText.isSome
  | 6 => c.pageUrl.isSome
  | _ => false

/-- The body of dispatch branch `i` of `getClickedElement`: the string the
branch returns, given the click data and the page state. -/
def branchOutput (i : Nat) (c : ClickedData) (page : PageState) : Option String :=
  match i with
  | 0 => some (serializeNode (.element "a" [("href", jsStr c.linkUrl)]
          [.element "img" [("src", jsStr c.srcUrl)] []]))
  | 1 => some (serializeNode (.element "a" [("href", jsStr c.linkUrl)]
          [.text (jsStr (c.selectionText.map JsValue.toStr))]))
  | 2 => some (serializeNode (.element "video" [("src", jsStr c.srcUrl)] []))
  | 3 => some (serializeNode (.element "audio" [("src", jsStr c.srcUrl)] []))
  | 4 => some (serializeNode (.element "img" [("src", jsStr c.srcUrl)] []))
  | 5 => some (String.join page.selectionRanges)
  | 6 => some page.documentHTML
  | _ => none

/-- The function `getClickedElement` from `src/pandoc.js`: the `switch (true)` dispatch,
testing the conditions in source order and returning the first matching
branch's serialization; falling through every case returns `undefined`,
modelled as `none`.  The page state stands for the globals `document` and
`window.getSelection()` the function reads. -/
def getClickedElement (c : ClickedData) (page : PageState) : Option String :=
  if branchCond 0 c then branchOutput 0 c page
  else if branchCond 1 c then branchOutput 1 c page
  else if branchCond 2 c then branchOutput 2 c page
  else if branchCond 3 c then branchOutput 3 c page
  else if branchCond 4 c then branchOutput 4 c page
  else if branchCond 5 c then branchOutput 5 c page
  else if branchCond 6 c then branchOutput 6 c page
  else none

/-- The selector `getClickedElement` as a state transformer on the page: every branch
only creates detached nodes (never attached to the document) and reads the
selection, so each returns the page state unchanged.  This records, branch
by branch, that the source mutates no persistent page state. -/
def getClickedElementRun (c : ClickedData) (page : PageState) :
    Option String × PageState :=
  if branchCond 0 c then (branchOutput 0 c page, page)
  else if branchCond 1 c then (branchOutput 1 c page, page)
  else if branchCond 2 c then (branchOutput 2 c page, page)
  else if branchCond 3 c then (branchOutput 3 c page, page)
  else if branchCond 4 c then (branchOutput 4 c page, page)
  else if branchCond 5 c then (branchOutput 5 c page, page)
  else if branchCond 6 c then (branchOutput 6 c page, page)
  else (none, page)

/-- A converter record from the configured converter list
(`{ name, command, args }` in `config.json`). -/
structure ConverterCommand where
  name : String
  command : String
  args : List String
deriving DecidableEq, Repr

/-- An injection target (`chrome.scripting.InjectionTarget`) as built by the source: a tab id,
optionally `allFrames: true`, optionally an explicit frame-id list.  A list
entry is the (possibly absent) `frameId` the source puts there. -/
structure InjectionTarget where
  tabId : Nat
  allFrames : Bool := false
  frameIds : Option (List (Option Nat)) := none
deriving DecidableEq, Repr

/-- The message `pandoc` sends over native messaging: command, arguments,
concatenated HTML input, and the flag requesting textual output. -/
structure ConversionRequest where
  command : String
  args : List String
  input : String
  output : Bool
deriving DecidableEq, Repr

/-- The native process reply: exit status and captured output text. -/
structure CommandResult where
  status : Int
  output : String
deriving DecidableEq, Repr

/-- One observable browser effect performed by the pipeline, in order. -/
inductive Effect where
  | injectGetClickedElement : InjectionTarget → ClickedData → Effect
  | sendNativeMessage : String → ConversionRequest → Effect
  | injectWriteTextToClipboard : InjectionTarget → String → Effect
deriving DecidableEq, Repr

/-- The concatenation step of `pandoc`:
`injectionResults.reduce((s, r) => s.concat(r.result), '')`.
`String.prototype.concat` coerces its argument with `ToString`, so an
absent per-frame result (`undefined`) contributes the string
`"undefined"`. -/
def pipelineInput (results : List (Option String)) : String :=
  results.foldl (fun selectedText result => selectedText ++ jsStr result) ""

/-- The pipeline `pandoc` from `src/pandoc.js`, as the ordered trace of effects of one
invocation.  The environment's replies — the per-frame injection results
and the native process reply — are passed in as parameters.  The source
awaits the selector injection, concatenates the results, sends the native
message, and then injects the clipboard write into the originating tab
unconditionally (there is no test of `commandResult.status`). -/
def pandoc (converterCommand : ConverterCommand) (injectionTarget : InjectionTarget)
    (clickedData : ClickedData) (injectionResults : List (Option String))
    (commandResult : CommandResult) : List Effect :=
  [Effect.injectGetClickedElement injectionTarget clickedData,
   Effect.sendNativeMessage "shell"
     { command := converterCommand.command
       args := converterCommand.args
       input := pipelineInput injectionResults
       output := true },
   Effect.injectWriteTextToClipboard { tabId := injectionTarget.tabId }
     commandResult.output]

/-- The clipboard-write effects of a trace, in order. -/
def clipboardWrites (trace : List Effect) : List Effect :=
  trace.filter fun e =>
    match e with
    | .injectWriteTextToClipboard _ _ => true
    | _ => false

/-- The native-messaging requests of a trace, in order. -/
def nativeRequests (trace : List Effect) : List ConversionRequest :=
  trace.filterMap fun e =>
    match e with
    | .sendNativeMessage _ req => some req
    | _ => none

/-- The background worker's storage cache: the configured converter list. -/
structure StorageCache where
  converters : List ConverterCommand
deriving DecidableEq, Repr

/-- Decimal digits of `n`, most significant first, computed with explicit
fuel (any `fuel ≥ n` suffices, since `n / 10 < n` for `n ≥ 10`). -/
def toDecimalDigitsAux : Nat → Nat → List Nat
  | 0, n => [n]
  | fuel + 1, n => if n < 10 then [n] else toDecimalDigitsAux fuel (n / 10) ++ [n % 10]

/-- Decimal digits of `n`, most significant first (`[0]` for zero). -/
def toDecimalDigits (n : Nat) : List Nat :=
  toDecimalDigitsAux n n

/-- The ASCII character of a decimal digit. -/
def digitChar10 (d : Nat) : Char :=
  match d with
  | 0 => '0' | 1 => '1' | 2 => '2' | 3 => '3' | 4 => '4'
  | 5 => '5' | 6 => '6' | 7 => '7' | 8 => '8' | _ => '9'

/-- JavaScript `index.toString()` for a list index: the decimal numeral. -/
def natToString10 (n : Nat) : String :=
  String.mk ((toDecimalDigits n).map digitChar10)

/-- JavaScript `parseInt(s, 10)` restricted to the shapes that occur here
(no leading whitespace or sign): the value of the longest leading run of
ASCII digits, or `none` (`NaN`) when there is no leading digit. -/
def parseInt10 (s : String) : Option Nat :=
  match s.data.takeWhile (fun c => 48 ≤ c.toNat && c.toNat ≤ 57) with
  | [] => none
  | ds => some (ds.foldl (fun acc c => 10 * acc + (c.toNat - 48)) 0)

/-- A context-menu entry as created by the background worker. -/
structure MenuItem where
  id : String
  title : String
  contexts : List String
deriving DecidableEq, Repr

/-- The function `createMenuItems` from `src/background.js`: one menu entry per
converter, with id the decimal string of the converter's list index. -/
def createMenuItems (cache : StorageCache) : List MenuItem :=
  cache.converters.enum.map fun p =>
    { id := natToString10 p.1
      title := "Copy as " ++ p.2.name
      contexts := ["page", "link", "video", "audio", "image", "selection"] }

/-- A browser tab, reduced to the field the handlers read. -/
structure Tab where
  id : Nat
deriving DecidableEq, Repr

/-- The arguments of one `pandoc` invocation: the converter looked up from
the cache (`undefined` when the index is absent), the injection target and
the click data. -/
structure PandocCall where
  converter : Option ConverterCommand
  target : InjectionTarget
  clicked : ClickedData
deriving DecidableEq, Repr

/-- The handler `onAction` from `src/background.js`: the toolbar-button / keyboard
shortcut handler.  It calls `pandoc` with `storageCache.converters[0]`,
target `{ tabId: tab.id, allFrames: true }` and click data
`{ selectionText: true }`. -/
def onAction (cache : StorageCache) (tab : Tab) : PandocCall :=
  { converter := cache.converters[0]?
    target := { tabId := tab.id, allFrames := true }
    clicked := { selectionText := some (.bool true) } }

/-- The handler `onMenuItemClicked` from `src/background.js`: parses the menu item id
with `parseInt(·, 10)`, looks the converter up at that index, and calls
`pandoc` with target `{ tabId: tab.id, frameIds: [clickedData.frameId] }`
and the real click data. -/
def onMenuItemClicked (cache : StorageCache) (clickedData : ClickedData) (tab : Tab) :
    PandocCall :=
  { converter := (parseInt10 (jsStr clickedData.menuItemId)).bind fun i =>
      cache.converters[i]?
    target := { tabId := tab.id, frameIds := some [clickedData.frameId] }
    clicked := clickedData }

/-- A storage change (`chrome.storage.StorageChange`) for the `converters` key. -/
structure StorageChange where
  oldValue : Option (List ConverterCommand) := none
  newValue : Option (List ConverterCommand) := none
deriving DecidableEq, Repr

/-- The change set passed to the storage listener: it may or may not
contain a `converters` entry. -/
structure StorageChanges where
  converters : Option StorageChange := none
deriving DecidableEq, Repr

/-- A JavaScript runtime exception. -/
inductive JsError where
  | typeError
deriving DecidableEq, Repr

/-- The handler `onOptionsChange` from `src/background.js`.  For the `local` and `sync`
areas it evaluates `changes.converters.newValue`: when the change set has
no `converters` entry this is a property access on `undefined`, a
`TypeError`.  Otherwise, a present (truthy) `newValue` replaces the cached
converter list and rebuilds the menus.  Returns the new cache and whether
the menus were rebuilt. -/
def onOptionsChange (cache : StorageCache) (changes : StorageChanges)
    (areaName : String) : Except JsError (StorageCache × Bool) :=
  if areaName = "local" ∨ areaName = "sync" then
    match changes.converters with
    | none => .error .typeError
    | some change =>
      match change.newValue with
      | none => .ok (cache, false)
      | some converters => .ok ({ converters := converters }, true)
  else .ok (cache, false)

/-- Modelled from the spec's dispatch rule, for comparison with the source
dispatch: the branches are evaluated in the fixed priority order
link+image, link+selection, video, audio, image, selection, whole page,
and the first branch whose condition matches produces the output. -/
def dispatchFirstMatch (c : ClickedData) (page : PageState) : Option String :=
  ((List.range 7).find? fun i => branchCond i c).bind fun i => branchOutput i c page

theorem join_cons_str (x : String) (xs : List String) :
    String.join (x :: xs) = x ++ String.join xs := by
  apply String.ext
  simp

theorem foldl_append_jsStr (rs : List (Option String)) :
    ∀ a : String, rs.foldl (fun s r => s ++ jsStr r) a = a ++ String.join (rs.map jsStr) := by
  induction rs with
  | nil =>
      intro a
      apply String.ext
      simp
  | cons r rs ih =>
      intro a
      simp only [List.foldl_cons, List.map_cons, ih, join_cons_str]
      apply String.ext
      simp

theorem pipelineInput_eq_join (rs : List (Option String)) :
    pipelineInput rs = String.join (rs.map jsStr) := by
  unfold pipelineInput
  rw [foldl_append_jsStr]
  apply String.ext
  simp

theorem digitChar10_val (d : Nat) (h : d < 10) :
    48 ≤ (digitChar10 d).toNat ∧ (digitChar10 d).toNat ≤ 57 ∧
      (digitChar10 d).toNat - 48 = d := by
  interval_cases d <;> decide

theorem toDecimalDigitsAux_sound :
    ∀ fuel n, n ≤ fuel →
      (∀ d ∈ toDecimalDigitsAux fuel n, d < 10) ∧
      (toDecimalDigitsAux fuel n).foldl (fun acc d => 10 * acc + d) 0 = n ∧
      toDecimalDigitsAux fuel n ≠ [] := by
  intro fuel
  induction fuel with
  | zero =>
      intro n hn
      have hz : n = 0 := Nat.le_zero.mp hn
      subst hz
      refine ⟨?_, ?_, ?_⟩ <;> simp [toDecimalDigitsAux]
  | succ fuel ih =>
      intro n hn
      by_cases h : n < 10
      · refine ⟨?_, ?_, ?_⟩ <;> simp [toDecimalDigitsAux, h]
      · have hd : n / 10 ≤ fuel := by
          have := Nat.div_lt_self (by omega : 0 < n) (by omega : 1 < 10)
          omega
        obtain ⟨hlt, hval, hne⟩ := ih (n / 10) hd
        refine ⟨?_, ?_, ?_⟩
        · intro d hdm
          simp only [toDecimalDigitsAux, if_neg h, List.mem_append,
            List.mem_singleton] at hdm
          rcases hdm with hdm | hdm
          · exact hlt d hdm
          · omega
        · simp only [toDecimalDigitsAux, if_neg h, List.foldl_append, hval,
            List.foldl_cons, List.foldl_nil]
          omega
        · simp [toDecimalDigitsAux, if_neg h]
  
theorem toDecimalDigits_sound (n : Nat) :
    (∀ d ∈ toDecimalDigits n, d < 10) ∧
    (toDecimalDigits n).foldl (fun acc d => 10 * acc + d) 0 = n ∧
    toDecimalDigits n ≠ [] :=
  toDecimalDigitsAux_sound n n (Nat.le_refl n)

theorem foldl_digits_map (ds : List Nat) (h : ∀ d ∈ ds, d < 10) :
    ∀ a : Nat, (ds.map digitChar10).foldl (fun acc c => 10 * acc + (c.toNat - 48)) a =
      ds.foldl (fun acc d => 10 * acc + d) a := by
  induction ds with
  | nil => intro a; rfl
  | cons d ds ih =>
      intro a
      have hd : d < 10 := h d (by simp)
      have hv := (digitChar10_val d hd).2.2
      simp only [List.map_cons, List.foldl_cons, hv]
      exact ih (fun x hx => h x (by simp [hx])) _

theorem parseInt10_natToString10 (n : Nat) :
    parseInt10 (natToString10 n) = some n := by
  obtain ⟨hlt, hval, hne⟩ := toDecimalDigits_sound n
  unfold parseInt10 natToString10
  have htw : (((toDecimalDigits n).map digitChar10).takeWhile
      (fun c => 48 ≤ c.toNat && c.toNat ≤ 57)) = (toDecimalDigits n).map digitChar10 := by
    apply List.takeWhile_eq_self_iff.mpr
    intro c hc
    rcases List.mem_map.mp hc with ⟨d, hd, rfl⟩
    have hb := digitChar10_val d (hlt d hd)
    simp only [Bool.and_eq_true, decide_eq_true_eq]
    exact ⟨hb.1, hb.2.1⟩
  show (match ((toDecimalDigits n).map digitChar10).takeWhile
      (fun c => 48 ≤ c.toNat && c.toNat ≤ 57) with
    | [] => none
    | ds => some (ds.foldl (fun acc c => 10 * acc + (c.toNat - 48)) 0)) = some n
  rw [htw]
  cases hmap : (toDecimalDigits n).map digitChar10 with
  | nil => exact absurd (List.map_eq_nil_iff.mp hmap) hne
  | cons c cs =>
      show some ((c :: cs).foldl (fun acc c => 10 * acc + (c.toNat - 48)) 0) = some n
      rw [← hmap, foldl_digits_map _ hlt, hval]

/-- C1: the spec states that on a non-zero process status the clipboard is
never written.  The source's `pandoc` injects `writeTextToClipboard`
unconditionally — there is no test of `commandResult.status` — so an
invocation whose reply has status 1 still performs exactly one
clipboard-write injection. -/
theorem pandoc_clipboard_written_despite_failure :
    (1 : Int) ≠ 0 ∧
    clipboardWrites (pandoc ⟨"Markdown", "pandoc", ["-f", "html", "-t", "markdown"]⟩
        { tabId := 1 } ⟨none, none, none, none, none, none, none⟩
        [some "<p>Hello</p>"] ⟨1, ""⟩) =
      [Effect.injectWriteTextToClipboard { tabId := 1 } ""] := by
  constructor
  · decide
  · rfl

/-- C2 counterexample: a frame whose selector produced no value does not
contribute the empty string to the concatenated input —
`String.prototype.concat` coerces `undefined` to the string
`"undefined"`. -/
theorem pipelineInput_missing_result_nonempty :
    pipelineInput [none] = "undefined" ∧ pipelineInput [none] ≠ "" := by
  constructor
  · rfl
  · decide

/-- C2 (amended): the input sent to the external process is the
concatenation of the per-frame selector results in frame-enumeration order
with no separator, where a frame with a result contributes that string and
a frame with no result contributes the string `"undefined"` (the
JavaScript coercion of `undefined`), not nothing. -/
theorem pandoc_request_input_is_ordered_concat
    (cmd : ConverterCommand) (tgt : InjectionTarget) (ck : ClickedData)
    (rs : List (Option String)) (res : CommandResult) :
    nativeRequests (pandoc cmd tgt ck rs res) =
      [{ command := cmd.command, args := cmd.args,
         input := String.join (rs.map jsStr), output := true }] ∧
    jsStr none = "undefined" := by
  refine ⟨?_, rfl⟩
  simp [pandoc, nativeRequests, pipelineInput_eq_join]

/-- C4: whenever the external process reply has status 0, the pipeline
performs exactly one clipboard-write injection, into the originating tab,
with the reply's output text unchanged. -/
theorem pandoc_success_clipboard_once
    (cmd : ConverterCommand) (tgt : InjectionTarget) (ck : ClickedData)
    (rs : List (Option String)) (res : CommandResult) (h : res.status = 0) :
    clipboardWrites (pandoc cmd tgt ck rs res) =
      [Effect.injectWriteTextToClipboard { tabId := tgt.tabId } res.output] := by
  simp [pandoc, clipboardWrites]

/-- C4 witness: end-to-end scenario C of the spec. -/
theorem pandoc_success_clipboard_once_witness :
    clipboardWrites (pandoc ⟨"Markdown", "pandoc", ["-f", "html", "-t", "markdown"]⟩
        { tabId := 1 } ⟨none, none, none, none, none, none, none⟩
        [some "<p>Hello</p>"] ⟨0, "Hello\n"⟩) =
      [Effect.injectWriteTextToClipboard { tabId := 1 } "Hello\n"] :=
  pandoc_success_clipboard_once _ _ _ _ _ rfl

/-- C5: on a context with a link URL and media type image, the selector
returns the serialization of an anchor whose href is the link URL,
containing exactly one image whose src is the media source URL. -/
theorem getClickedElement_link_image
    (c : ClickedData) (page : PageState) (u s : String)
    (hl : c.linkUrl = some u) (hm : c.mediaType = some "image")
    (hs : c.srcUrl = some s) :
    getClickedElement c page =
      some (serializeNode (Node.element "a" [("href", u)]
        [Node.element "img" [("src", s)] []])) := by
  have h0 : branchCond 0 c = true := by
    simp [branchCond, hl, hm]
  unfold getClickedElement
  simp [h0, branchOutput, hl, hs, jsStr]

/-- C5 witness: a concrete link+image context. -/
theorem getClickedElement_link_image_witness :
    getClickedElement
        ⟨some "https://x", some "https://x/img.png", some "image", none, none, none, none⟩
        ⟨[], "<html></html>"⟩ =
      some (serializeNode (Node.element "a" [("href", "https://x")]
        [Node.element "img" [("src", "https://x/img.png")] []])) :=
  getClickedElement_link_image _ _ _ _ rfl rfl rfl

/-- C6: on a context with a text selection but no link and no media,
evaluated against a page whose selection has zero ranges, the selector
returns the empty string. -/
theorem getClickedElement_selection_no_ranges
    (c : ClickedData) (page : PageState)
    (hsel : c.selectionText.isSome = true) (hl : c.linkUrl = none)
    (hm : c.mediaType = none) (hr : page.selectionRanges = []) :
    getClickedElement c page = some "" := by
  unfold getClickedElement
  simp [branchCond, branchOutput, hl, hm, hsel, hr]
  rfl

/-- C6 witness: a concrete selection-only context on a page with no
selection ranges. -/
theorem getClickedElement_selection_no_ranges_witness :
    getClickedElement
        ⟨none, none, none, some (.str "hi"), some "https://x/page", none, none⟩
        ⟨[], "<html></html>"⟩ = some "" :=
  getClickedElement_selection_no_ranges _ _ rfl rfl rfl rfl

/-- C3 counterexample: a context carrying only a link URL (no media type,
no selection, no page URL) matches none of the seven dispatch conditions,
so no branch applies and the selector produces no value — refuting that
exactly one branch applies to every context. -/
theorem getClickedElement_no_branch_matches :
    ((List.range 7).find? fun i =>
        branchCond i ⟨some "https://x", none, none, none, none, none, none⟩) = none ∧
    getClickedElement ⟨some "https://x", none, none, none, none, none, none⟩
        ⟨[], "<html></html>"⟩ = none := by
  constructor
  · rfl
  · rfl

/-- C3 (amended): at most one dispatch branch applies per context — the
dispatch equals first-match-wins evaluation over the branches in the fixed
priority order link+image, link+selection, video, audio, image, selection,
whole page; a context matching no condition produces no value. -/
theorem getClickedElement_is_first_match (c : ClickedData) (page : PageState) :
    getClickedElement c page = dispatchFirstMatch c page := by
  unfold getClickedElement dispatchFirstMatch
  rw [show List.range 7 = [0, 1, 2, 3, 4, 5, 6] from rfl]
  cases h0 : branchCond 0 c <;> cases h1 : branchCond 1 c <;>
    cases h2 : branchCond 2 c <;> cases h3 : branchCond 3 c <;>
    cases h4 : branchCond 4 c <;> cases h5 : branchCond 5 c <;>
    cases h6 : branchCond 6 c <;>
    simp [List.find?, h0, h1, h2, h3, h4, h5, h6]

/-- C7: a toolbar-button activation invokes the pipeline with the first
configured converter, all frames of the tab, and the implicit
selection-only context; a context-menu click whose menu item id is the
decimal string of index `i` invokes it with the converter at index `i`,
only the originating frame, and the real click data. -/
theorem triggers_invoke_pipeline
    (cache : StorageCache) (tab : Tab) (clicked : ClickedData) (i : Nat) :
    onAction cache tab =
      { converter := cache.converters[0]?
        target := { tabId := tab.id, allFrames := true, frameIds := none }
        clicked := { linkUrl := none, srcUrl := none, mediaType := none,
                     selectionText := some (JsValue.bool true), pageUrl := none,
                     menuItemId := none, frameId := none } } ∧
    (clicked.menuItemId = some (natToString10 i) →
      onMenuItemClicked cache clicked tab =
        { converter := cache.converters[i]?
          target := { tabId := tab.id, allFrames := false,
                      frameIds := some [clicked.frameId] }
          clicked := clicked }) := by
  refine ⟨rfl, fun h => ?_⟩
  simp [onMenuItemClicked, h, jsStr, parseInt10_natToString10]

/-- C7 witness: a two-converter configuration, the toolbar trigger and a
click on the second menu entry. -/
theorem triggers_invoke_pipeline_witness :
    onAction ⟨[⟨"Markdown", "pandoc", ["-f", "html", "-t", "markdown"]⟩,
               ⟨"LaTeX", "pandoc", ["-f", "html", "-t", "latex"]⟩]⟩ ⟨7⟩ =
      { converter := some ⟨"Markdown", "pandoc", ["-f", "html", "-t", "markdown"]⟩
        target := { tabId := 7, allFrames := true, frameIds := none }
        clicked := { linkUrl := none, srcUrl := none, mediaType := none,
                     selectionText := some (JsValue.bool true), pageUrl := none,
                     menuItemId := none, frameId := none } } ∧
    onMenuItemClicked ⟨[⟨"Markdown", "pandoc", ["-f", "html", "-t", "markdown"]⟩,
               ⟨"LaTeX", "pandoc", ["-f", "html", "-t", "latex"]⟩]⟩
        ⟨none, none, none, some (.str "hi"), some "https://x/page", some "1", some 3⟩ ⟨7⟩ =
      { converter := some ⟨"LaTeX", "pandoc", ["-f", "html", "-t", "latex"]⟩
        target := { tabId := 7, allFrames := false, frameIds := some [some 3] }
        clicked := ⟨none, none, none, some (.str "hi"), some "https://x/page",
                    some "1", some 3⟩ } := by
  constructor
  · exact (triggers_invoke_pipeline _ ⟨7⟩
      ⟨none, none, none, some (.str "hi"), some "https://x/page", some "1", some 3⟩ 1).1
  · exact (triggers_invoke_pipeline _ ⟨7⟩
      ⟨none, none, none, some (.str "hi"), some "https://x/page", some "1", some 3⟩ 1).2 rfl

theorem getClickedElementRun_snd (c : ClickedData) (page : PageState) :
    (getClickedElementRun c page).2 = page := by
  unfold getClickedElementRun
  repeat' split
  all_goals rfl

/-- C8: the selector is deterministic and idempotent — it leaves the page
state unchanged, and running it a second time against the resulting page
state with the identical context yields the identical result. -/
theorem getClickedElementRun_idempotent (c : ClickedData) (page : PageState) :
    (getClickedElementRun c page).2 = page ∧
    getClickedElementRun c (getClickedElementRun c page).2 =
      getClickedElementRun c page := by
  refine ⟨getClickedElementRun_snd c page, ?_⟩
  rw [getClickedElementRun_snd]

/-- C9: menu entries are created with ids the decimal strings of the
converter indices, a click parses the id back with `parseInt(·, 10)`, and
the round trip is the identity: clicking entry `i` invokes exactly the
converter at index `i`. -/
theorem menu_index_roundtrip
    (cache : StorageCache) (i : Nat) (conv : ConverterCommand) (mi : MenuItem)
    (clicked : ClickedData) (tab : Tab)
    (hconv : cache.converters[i]? = some conv)
    (hmi : (createMenuItems cache)[i]? = some mi)
    (hid : clicked.menuItemId = some mi.id) :
    mi.id = natToString10 i ∧ parseInt10 mi.id = some i ∧
    (onMenuItemClicked cache clicked tab).converter = some conv := by
  have hmi2 : (createMenuItems cache)[i]? = some
      { id := natToString10 i, title := "Copy as " ++ conv.name,
        contexts := ["page", "link", "video", "audio", "image", "selection"] } := by
    unfold createMenuItems
    rw [List.getElem?_map, List.getElem?_enum, hconv]
    rfl
  rw [hmi] at hmi2
  have hm := Option.some.inj hmi2
  subst hm
  refine ⟨rfl, parseInt10_natToString10 i, ?_⟩
  simp [onMenuItemClicked, hid, jsStr, parseInt10_natToString10, hconv]

/-- C9 witness: the second entry of a two-converter configuration. -/
theorem menu_index_roundtrip_witness :
    ("1" : String) = natToString10 1 ∧ parseInt10 "1" = some 1 ∧
    (onMenuItemClicked ⟨[⟨"Markdown", "pandoc", ["-f", "html", "-t", "markdown"]⟩,
        ⟨"LaTeX", "pandoc", ["-f", "html", "-t", "latex"]⟩]⟩
      ⟨none, none, none, none, some "https://x/page", some "1", some 3⟩
      ⟨7⟩).converter = some ⟨"LaTeX", "pandoc", ["-f", "html", "-t", "latex"]⟩ :=
  menu_index_roundtrip
    ⟨[⟨"Markdown", "pandoc", ["-f", "html", "-t", "markdown"]⟩,
      ⟨"LaTeX", "pandoc", ["-f", "html", "-t", "latex"]⟩]⟩ 1
    ⟨"LaTeX", "pandoc", ["-f", "html", "-t", "latex"]⟩
    ⟨"1", "Copy as LaTeX", ["page", "link", "video", "audio", "image", "selection"]⟩
    ⟨none, none, none, none, some "https://x/page", some "1", some 3⟩ ⟨7⟩
    rfl rfl rfl

/-- C10: for a storage change in the `sync` or `local` area whose change
set has no `converters` entry, `onOptionsChange` evaluates
`changes.converters.newValue` — a property access on `undefined` — and
throws a `TypeError` instead of leaving the cache and menus unchanged. -/
theorem onOptionsChange_missing_converters_throws
    (cache : StorageCache) (changes : StorageChanges) (area : String)
    (hc : changes.converters = none) (ha : area = "sync" ∨ area = "local") :
    onOptionsChange cache changes area = .error .typeError := by
  have hcond : area = "local" ∨ area = "sync" := by
    rcases ha with rfl | rfl <;> simp
  unfold onOptionsChange
  rw [if_pos hcond, hc]

/-- C10 witness: a `sync`-area change set without a `converters` entry. -/
theorem onOptionsChange_missing_converters_throws_witness :
    onOptionsChange ⟨[]⟩ ⟨none⟩ "sync" = .error .typeError :=
  onOptionsChange_missing_converters_throws ⟨[]⟩ ⟨none⟩ "sync" rfl (Or.inl rfl)
